import Mathlib

/-!
Shallow embedding of the Cyclone master dispatch loop
(`src/cyclone-master.py`), the worker loop (`src/worker.py`), the
scoped critical section (`src/ctrl/critical_section.py`) and the master
communication endpoint (`src/master_comm_handler.py`).

Python dictionaries are modelled as insertion-ordered association
lists, Python exceptions as an explicit error component of each step
result, and wall-clock reads as explicit `Nat` parameters.
-/

namespace Cyclone

/-- A Python `dict` with string keys: an insertion-ordered association list. -/
abbrev Dict (α : Type) := List (String × α)

/-- `d[k]` lookup: first binding of `k`, if any. -/
def dictGet {α : Type} : Dict α → String → Option α
  | [], _ => none
  | (k', v) :: d, k => if k = k' then some v else dictGet d k

/-- `d[k] = v`: update the existing binding in place, else append a new one
(Python dicts preserve insertion order). -/
def dictSet {α : Type} : Dict α → String → α → Dict α
  | [], k, v => [(k, v)]
  | (k', v') :: d, k, v => if k = k' then (k', v) :: d else (k', v') :: dictSet d k v

/-- `d.pop(k, None)`: drop the binding of `k`, if any. -/
def dictPop {α : Type} : Dict α → String → Dict α
  | [], _ => []
  | (k', v') :: d, k => if k = k' then d else (k', v') :: dictPop d k

/-- `d.keys()` in insertion order. -/
def dictKeys {α : Type} (d : Dict α) : List String := d.map Prod.fst

/-- `TaskState` from `ctrl/task_status_item.py`. Modelled from the spec:
the module is not among the given sources; the spec fixes the enumeration
as exactly ASSIGNED and FINISHED. -/
inductive TaskState
  | assigned
  | finished
deriving DecidableEq, Repr

/-- A task as seen by the dispatch loop: only `tid` is addressable. -/
structure Task where
  tid : String
deriving DecidableEq, Repr

/-- `TaskStatusItem` from `ctrl/task_status_item.py`. Modelled from the spec:
the module is not among the given sources; the spec fixes the fields as
`tid`, `state`, `controller_id` and `timestamp`. -/
structure TaskStatusItem where
  tid : String
  state : TaskState
  controller : String
  timestamp : Nat
deriving DecidableEq, Repr

/-- Python exceptions relevant to the embedded code paths. -/
inductive PyErr
  | decodeError
  | attributeError (name : String)
  | valueError (msg : String)
  | runtimeError (msg : String)
deriving DecidableEq, Repr

/-- A decoded inbound message (`msg/message_factory.py` is not among the
given sources; the message set and fields are modelled from the spec). -/
inductive MsgIn
  | taskRequest (sender : String)
  | taskFinished (sender : String) (tid : String)
  | heartbeat (sender : String)
  | unknown (sender : String)
deriving DecidableEq, Repr

/-- `recv_msg.sender` for each inbound message kind. -/
def MsgIn.sender : MsgIn → String
  | .taskRequest s => s
  | .taskFinished s _ => s
  | .heartbeat s => s
  | .unknown s => s

/-- Outbound messages of the master. -/
inductive MsgOut
  | taskAssign (task : Task)
  | wait (duration : Nat)
  | acknowledge
  | exitCommand
deriving DecidableEq, Repr

/-- Raw data returned by a successful receive: either a string that the
message factory decodes, or one on which decoding raises. -/
inductive RecvData
  | msg (m : MsgIn)
  | malformed (raw : String)
deriving DecidableEq, Repr

/-- Configuration values read in `main` (cyclone-master.py lines 190-192). -/
structure Config where
  controllerTimeout : Nat
  taskResendTimeout : Nat
deriving DecidableEq, Repr

/-- Mutable state of the dispatch loop in `main`: the distribution flag,
`controller_wait_duration` (a local rebound to 0 on generator death), the
two dicts, both shared queues, the loop flag and the error counter. -/
structure MasterState where
  taskDistribution : Bool
  controllerWaitDuration : Nat
  taskStatus : Dict TaskStatusItem
  controllerHeartbeat : Dict Nat
  taskQueue : List Task
  resultQueue : List String
  runFlag : Bool
  errorCount : Nat
deriving DecidableEq, Repr

/-- Per-iteration environment: `last_exec_timestamp` read at the loop top
(line 206), the later `int(time.time())` reads collapsed into `now`,
`task_generator.is_alive()`, and the acquisition outcome a successful
`is_locked()` query on the task-queue critical section would report.
Against the class given in `src/ctrl/critical_section.py` the query
itself raises before this value could be consulted (see
`handleTaskRequestSrc`), so `lockAcquired` feeds only the statically
dead guarded body. -/
structure IterEnv where
  lastExecTimestamp : Nat
  now : Nat
  genAlive : Bool
  lockAcquired : Bool
deriving DecidableEq, Repr

/-- Result of one loop iteration: the state after it, the messages sent
during it, each tagged with the value of `TASK_DISTRIBUTION` at the moment
of the send, and the exception that reached the iteration handler, if any. -/
structure InnerResult where
  st : MasterState
  sent : List (Bool × MsgOut)
  err : Option PyErr
deriving DecidableEq, Repr

/-- Record a fresh assignment and reply TASK_ASSIGN
(cyclone-master.py lines 274-282). -/
def doAssign (env : IterEnv) (sender : String) (task : Task) (s : MasterState) : InnerResult :=
  ⟨{ s with taskStatus := dictSet s.taskStatus task.tid
              ⟨task.tid, TaskState.assigned, sender, env.now⟩ },
    [(s.taskDistribution, MsgOut.taskAssign task)], none⟩

/-- The body of the TASK_REQUEST branch guarded by the
`critical_section.is_locked()` check (cyclone-master.py lines 232-288),
parameterized by the acquisition outcome `env.lockAcquired` a successful
check would have reported: inside the critical section pop a task if the
queue is non-empty, otherwise flip distribution off when the generator
has died; then decide between TASK_ASSIGN, WAIT and the undefined-state
error. Against the class given in src/ctrl/critical_section.py the check
itself raises, so this body is reached only through
`handleTaskRequestSrc`, never in the running program. -/
def handleTaskRequest (cfg : Config) (env : IterEnv) (sender : String) (s : MasterState) :
    InnerResult :=
  let popped : Option Task × MasterState :=
    if env.lockAcquired then
      match s.taskQueue with
      | t :: rest => (some t, { s with taskQueue := rest })
      | [] =>
        if env.genAlive then (none, s)
        else (none, { s with taskDistribution := false, controllerWaitDuration := 0 })
    else (none, s)
  match popped with
  | (some task, s1) =>
    match dictGet s1.taskStatus task.tid with
    | some rec =>
      if rec.state = TaskState.finished ∨
          env.lastExecTimestamp ≥ rec.timestamp + cfg.taskResendTimeout then
        doAssign env sender task s1
      else if rec.state = TaskState.assigned ∧
          env.lastExecTimestamp < rec.timestamp + cfg.taskResendTimeout then
        ⟨s1, [(s1.taskDistribution, MsgOut.wait s1.controllerWaitDuration)], none⟩
      else
        ⟨s1, [], some (PyErr.runtimeError ("Undefined state processing task: " ++ task.tid))⟩
    | none => doAssign env sender task s1
  | (none, s1) =>
    ⟨s1, [(s1.taskDistribution, MsgOut.wait s1.controllerWaitDuration)], none⟩

/-! ### `src/ctrl/critical_section.py` as given -/

namespace CriticalSectionSrc

/-- The attributes the class body of `CriticalSection`
(src/ctrl/critical_section.py lines 21-36) defines: only the constructor
and the two context-manager methods. -/
def members : List String := ["__init__", "__enter__", "__exit__"]

/-- Python attribute lookup against that class. -/
def hasAttr (name : String) : Bool := members.contains name

end CriticalSectionSrc

/-- Evaluating `critical_section.is_locked()` (cyclone-master.py line 230)
against the class given in src/ctrl/critical_section.py: attribute lookup
precedes the call and raises AttributeError when the name is absent. -/
def isLockedLookup : Except PyErr Bool :=
  if CriticalSectionSrc.hasAttr "is_locked" then Except.ok true
  else Except.error (PyErr.attributeError "is_locked")

/-- The TASK_REQUEST branch as it runs (cyclone-master.py lines 228-288):
`with CriticalSection(task_queue.lock, timeout=1)` then the
`critical_section.is_locked()` check; against the class given in
src/ctrl/critical_section.py the attribute lookup raises AttributeError
before the queue is touched, so the guarded body never runs; had the
lookup produced an acquisition test, its outcome would feed
`handleTaskRequest`. -/
def handleTaskRequestSrc (cfg : Config) (env : IterEnv) (sender : String) (s : MasterState) :
    InnerResult :=
  match isLockedLookup with
  | Except.error e => ⟨s, [], some e⟩
  | Except.ok b => handleTaskRequest cfg { env with lockAcquired := b } sender s

/-- The TASK_FINISHED branch (cyclone-master.py lines 290-316). -/
def handleTaskFinished (env : IterEnv) (sender : String) (tid : String) (s : MasterState) :
    InnerResult :=
  match dictGet s.taskStatus tid with
  | some rec =>
    if sender = rec.controller then
      ⟨{ s with
          taskStatus := dictSet s.taskStatus tid
            { rec with state := TaskState.finished, timestamp := env.now },
          resultQueue := s.resultQueue ++ [tid] },
        [(s.taskDistribution, MsgOut.acknowledge)], none⟩
    else
      ⟨s, [(s.taskDistribution, MsgOut.acknowledge)], none⟩
  | none => ⟨s, [], some (PyErr.runtimeError "Inconsistency detected on task finished!")⟩

/-- The shutdown branch taken for any received message while distribution
is off (cyclone-master.py lines 330-342): send EXIT, drop the sender from
the heartbeat dict, stop the loop when no controller remains
(`check_all_controller_down`, lines 120-128). -/
def handleShutdown (m : MsgIn) (s : MasterState) : InnerResult :=
  let hb := dictPop s.controllerHeartbeat m.sender
  ⟨{ s with controllerHeartbeat := hb,
            runFlag := if hb.length = 0 then false else s.runFlag },
    [(s.taskDistribution, MsgOut.exitCommand)], none⟩

/-- One step of `for controller_name in controller_heartbeat_dict.keys()`
(cyclone-master.py lines 351-357) under CPython dict-iterator semantics:
every `next` call first compares the current size with the size recorded
at iterator creation and raises RuntimeError on mismatch, so a `pop`
inside the loop body raises at the following step. -/
def pruneIter (t0 timeout : Nat) : List String → Nat → Dict Nat → Dict Nat × Option PyErr
  | [], n, d =>
    if d.length = n then (d, none)
    else (d, some (PyErr.runtimeError "dictionary changed size during iteration"))
  | k :: ks, n, d =>
    if d.length = n then
      match dictGet d k with
      | some ts =>
        if t0 ≥ ts + timeout then pruneIter t0 timeout ks n (dictPop d k)
        else pruneIter t0 timeout ks n d
      | none => pruneIter t0 timeout ks n d
    else (d, some (PyErr.runtimeError "dictionary changed size during iteration"))

/-- The poll-timeout branch (cyclone-master.py lines 344-360): while
distribution is off, prune heartbeat entries older than
`controller_timeout` and stop the loop when none remain. -/
def handleTimeout (cfg : Config) (env : IterEnv) (s : MasterState) : InnerResult :=
  if s.taskDistribution then ⟨s, [], none⟩
  else
    match pruneIter env.lastExecTimestamp cfg.controllerTimeout
        (dictKeys s.controllerHeartbeat) s.controllerHeartbeat.length s.controllerHeartbeat with
    | (hb, some e) => ⟨{ s with controllerHeartbeat := hb }, [], some e⟩
    | (hb, none) =>
      ⟨{ s with controllerHeartbeat := hb,
                runFlag := if hb.length = 0 then false else s.runFlag }, [], none⟩

/-- The body of the `try` block of one loop iteration
(cyclone-master.py lines 204-360). A malformed message raises in
`MessageFactory.create` (line 216) before the heartbeat upsert; a decoded
message first upserts `controller_heartbeat[sender]` (line 220) and then
branches on the distribution flag and the message type. -/
def dispatchInner (cfg : Config) (env : IterEnv) (recv : Option RecvData) (s : MasterState) :
    InnerResult :=
  match recv with
  | none => handleTimeout cfg env s
  | some (RecvData.malformed _) => ⟨s, [], some PyErr.decodeError⟩
  | some (RecvData.msg m) =>
    let s1 := { s with controllerHeartbeat := dictSet s.controllerHeartbeat m.sender env.now }
    if s1.taskDistribution then
      match m with
      | MsgIn.taskRequest sender => handleTaskRequestSrc cfg env sender s1
      | MsgIn.taskFinished sender tid => handleTaskFinished env sender tid s1
      | MsgIn.heartbeat _ => ⟨s1, [(s1.taskDistribution, MsgOut.acknowledge)], none⟩
      | MsgIn.unknown _ =>
        ⟨s1, [], some (PyErr.runtimeError "Undefined type found in message")⟩
    else handleShutdown m s1

/-- `max_error_count` (cyclone-master.py line 148). -/
def maxErrorCount : Nat := 100

/-- One full iteration including the `except` handler
(cyclone-master.py lines 362-372): on an exception, count it, flip
distribution off via `stop_task_distribution`, stop the loop at the
error limit, and send nothing further. -/
def dispatchIteration (cfg : Config) (env : IterEnv) (recv : Option RecvData) (s : MasterState) :
    InnerResult :=
  let r := dispatchInner cfg env recv s
  match r.err with
  | none => r
  | some e =>
    ⟨{ r.st with
        errorCount := r.st.errorCount + 1,
        taskDistribution := false,
        runFlag := if r.st.errorCount + 1 = maxErrorCount then false else r.st.runFlag },
      r.sent, some e⟩

/-! ### `src/master_comm_handler.py` as given -/

/-- Outcome of a receive on the master endpoint: either a message, or the
call does not return because nothing is pending. -/
inductive RecvOutcome
  | blocked
  | received (raw : String)
deriving DecidableEq, Repr

namespace MasterCommHandlerSrc

/-- The parameters of `MasterCommHandler.__init__`
(src/master_comm_handler.py lines 26-29) besides `self`: no poll-timeout
is accepted. -/
def initParams : List String := ["target", "port"]

/-- `MasterCommHandler.recv` (src/master_comm_handler.py lines 64-67):
`self.socket.recv()` on the REP socket with no flags and no poller, so
with no message pending the call never returns to the caller. -/
def recv (pending : List String) : RecvOutcome :=
  match pending with
  | [] => RecvOutcome.blocked
  | m :: _ => RecvOutcome.received m

end MasterCommHandlerSrc

/-! ### `src/worker.py` -/

namespace WorkerState

/-- `WorkerState.NOT_READY` (src/worker.py). -/
def notReady : Nat := 0

/-- `WorkerState.READY` (src/worker.py). -/
def ready : Nat := 1

/-- `WorkerState.EXECUTING` (src/worker.py). -/
def executing : Nat := 2

end WorkerState

/-- Size of the shared `tid` buffer:
`multiprocessing.RawArray('c', 64)` (src/worker.py). -/
def tidBufSize : Nat := 64

/-- A `WorkerStateTableItem` (src/worker.py lines 55-89): a C int state,
a 64-byte C char array for the tid, and an unsigned timestamp. The char
array is the list of its byte values. -/
structure WorkerStateTableItem where
  state : Nat
  tid : List Nat
  timestamp : Nat
deriving DecidableEq, Repr

/-- `str.encode()` restricted to the byte values; for ASCII strings the
UTF-8 bytes are exactly the code points. -/
def strEncode (s : String) : List Nat := s.data.map Char.toNat

/-- `bytes.decode()` on the byte values; for ASCII bytes the inverse of
`strEncode`. -/
def strDecode (bs : List Nat) : String := ⟨bs.map Char.ofNat⟩

/-- Assigning `.value` on a ctypes char array of length `buf.length`:
the bytes are copied to the front and, when they do not fill the array,
a NUL terminator is written right after them; bytes beyond that keep
their previous values. -/
def bufWrite (buf bs : List Nat) : List Nat :=
  bs ++ (if bs.length < buf.length then 0 :: buf.drop (bs.length + 1) else [])

/-- `WorkerStateTableItem.set_tid` (src/worker.py): `task_name.encode()`
assigned to the char array's `.value`; ctypes raises ValueError when the
bytes exceed the array size. -/
def setTid (item : WorkerStateTableItem) (taskName : String) :
    Except PyErr WorkerStateTableItem :=
  let bs := strEncode taskName
  if bs.length > tidBufSize then Except.error (PyErr.valueError "byte string too long")
  else Except.ok { item with tid := bufWrite item.tid bs }

/-- `WorkerStateTableItem.get_tid` (src/worker.py): reading the char
array's `.value` yields the bytes up to the first NUL, then decodes. -/
def getTid (item : WorkerStateTableItem) : String :=
  strDecode (item.tid.takeWhile (fun b => b != 0))

/-- Outcome of `task.execute()` as seen by the worker loop. -/
inductive ExecOutcome
  | ok
  | raises (msg : String)
deriving DecidableEq, Repr

/-- State a worker iteration touches: its worker-state slot, the shared
result queue and the log. -/
structure WorkerCtx where
  item : WorkerStateTableItem
  resultQueue : List String
  log : List String
deriving DecidableEq, Repr

/-- One iteration of `Worker.run` after a task was popped
(src/worker.py lines 135-165): publish EXECUTING with the task's tid
under the table lock; run `task.execute()` with any exception caught and
logged; push the tid to the result queue under the condition and notify;
publish READY with an empty tid. An exception raised by `set_tid` itself
is outside the inner `try` and escapes. -/
def workerIteration (task : Task) (outcome : ExecOutcome) (t1 t2 : Nat) (ctx : WorkerCtx) :
    Except PyErr WorkerCtx :=
  match setTid ctx.item task.tid with
  | Except.error e => Except.error e
  | Except.ok itemA =>
    let itemB := { itemA with state := WorkerState.executing, timestamp := t1 }
    let log1 :=
      match outcome with
      | ExecOutcome.ok => ctx.log
      | ExecOutcome.raises m =>
        ctx.log ++ ["Caught exception in worker during task execute: " ++ m]
    let rq := ctx.resultQueue ++ [task.tid]
    match setTid itemB "" with
    | Except.error e => Except.error e
    | Except.ok itemC =>
      Except.ok { item := { itemC with state := WorkerState.ready, timestamp := t2 },
                  resultQueue := rq, log := log1 }

/-! ### Association-list bookkeeping -/

theorem dictGet_eq_none {α : Type} (d : Dict α) (k : String) (h : k ∉ dictKeys d) :
    dictGet d k = none := by
  induction d with
  | nil => rfl
  | cons hd tl ih =>
    obtain ⟨ka, va⟩ := hd
    simp only [dictKeys, List.map_cons, List.mem_cons, not_or] at h
    simp only [dictGet, if_neg h.1]
    exact ih h.2

theorem dictGet_dictSet_self {α : Type} (d : Dict α) (k : String) (v : α) :
    dictGet (dictSet d k v) k = some v := by
  induction d with
  | nil => simp [dictSet, dictGet]
  | cons hd tl ih =>
    obtain ⟨ka, va⟩ := hd
    by_cases hk : k = ka
    · simp [dictSet, dictGet, hk]
    · simp [dictSet, dictGet, hk, ih]

theorem dictGet_dictSet_ne {α : Type} (d : Dict α) (k k' : String) (v : α) (h : k' ≠ k) :
    dictGet (dictSet d k v) k' = dictGet d k' := by
  induction d with
  | nil => simp [dictSet, dictGet, h]
  | cons hd tl ih =>
    obtain ⟨ka, va⟩ := hd
    by_cases hk : k = ka
    · subst hk
      simp [dictSet, dictGet, h]
    · by_cases hk' : k' = ka
      · simp [dictSet, dictGet, hk, hk']
      · simp [dictSet, dictGet, hk, hk', ih]

theorem dictGet_dictPop_ne {α : Type} (d : Dict α) (k k' : String) (h : k' ≠ k) :
    dictGet (dictPop d k) k' = dictGet d k' := by
  induction d with
  | nil => rfl
  | cons hd tl ih =>
    obtain ⟨ka, va⟩ := hd
    by_cases hk : k = ka
    · subst hk
      simp [dictPop, dictGet, h]
    · by_cases hk' : k' = ka
      · simp [dictPop, dictGet, hk, hk']
      · simp [dictPop, dictGet, hk, hk', ih]

theorem mem_dictKeys_dictSet {α : Type} (d : Dict α) (k a : String) (v : α) :
    a ∈ dictKeys (dictSet d k v) ↔ a ∈ dictKeys d ∨ a = k := by
  induction d with
  | nil => simp [dictSet, dictKeys]
  | cons hd tl ih =>
    obtain ⟨ka, va⟩ := hd
    by_cases hk : k = ka
    · subst hk
      simp only [dictSet, if_true, eq_self_iff_true, dictKeys, List.map_cons, List.mem_cons]
      tauto
    · simp only [dictSet, if_neg hk, dictKeys, List.map_cons, List.mem_cons] at ih ⊢
      rw [ih]
      tauto

theorem nodup_dictKeys_dictSet {α : Type} (d : Dict α) (k : String) (v : α)
    (h : (dictKeys d).Nodup) : (dictKeys (dictSet d k v)).Nodup := by
  induction d with
  | nil => simp [dictSet, dictKeys]
  | cons hd tl ih =>
    obtain ⟨ka, va⟩ := hd
    simp only [dictKeys, List.map_cons, List.nodup_cons] at h
    by_cases hk : k = ka
    · subst hk
      simp only [dictSet, if_true, eq_self_iff_true, dictKeys, List.map_cons, List.nodup_cons]
      exact h
    · simp only [dictSet, if_neg hk, dictKeys, List.map_cons, List.nodup_cons]
      refine ⟨?_, ih h.2⟩
      intro hmem
      rcases (mem_dictKeys_dictSet tl k ka v).mp hmem with hin | heq
      · exact h.1 hin
      · exact hk heq.symm

theorem dictGet_dictPop_self {α : Type} (d : Dict α) (k : String)
    (h : (dictKeys d).Nodup) : dictGet (dictPop d k) k = none := by
  induction d with
  | nil => rfl
  | cons hd tl ih =>
    obtain ⟨ka, va⟩ := hd
    simp only [dictKeys, List.map_cons, List.nodup_cons] at h
    by_cases hk : k = ka
    · subst hk
      simp only [dictPop, if_pos rfl]
      exact dictGet_eq_none tl k h.1
    · simp only [dictPop, if_neg hk, dictGet, if_neg hk]
      exact ih h.2

/-! ### C3 -/

/-- C3: the claim says every received message is answered with exactly one
reply, a malformed one with one ACKNOWLEDGE. Evaluating the loop on a
message that fails decoding: the exception handler counts the error and
stops distribution, but the iteration sends no reply at all. -/
theorem C3_decode_failure_sends_no_reply (cfg : Config) (env : IterEnv) (raw : String)
    (s : MasterState) :
    (dispatchIteration cfg env (some (RecvData.malformed raw)) s).sent = [] ∧
    (dispatchIteration cfg env (some (RecvData.malformed raw)) s).err
        = some PyErr.decodeError ∧
    (dispatchIteration cfg env (some (RecvData.malformed raw)) s).st.errorCount
        = s.errorCount + 1 ∧
    (dispatchIteration cfg env (some (RecvData.malformed raw)) s).st.taskDistribution
        = false :=
  ⟨rfl, rfl, rfl, rfl⟩

/-! ### C6 -/

/-- Drain-phase state with a single expired heartbeat entry. -/
def c6State : MasterState :=
  { taskDistribution := false, controllerWaitDuration := 5, taskStatus := [],
    controllerHeartbeat := [("controller1", 0)], taskQueue := [], resultQueue := [],
    runFlag := true, errorCount := 0 }

/-- C6: the claim says the timeout-branch pruning removes every expired
heartbeat entry and completes without raising for every number of expired
entries, terminating the loop if the map empties. Evaluating the code with
one expired entry (`controller_timeout = 5`, `last_seen = 0`, `now = 10`):
the `pop` inside the iteration over `dict.keys()` makes the next iterator
step raise RuntimeError, the error is counted, and although the map is now
empty the loop is left running. -/
theorem C6_prune_raises_on_expired_entry :
    (dispatchIteration ⟨5, 300⟩ ⟨10, 10, true, true⟩ none c6State).err
        = some (PyErr.runtimeError "dictionary changed size during iteration") ∧
    (dispatchIteration ⟨5, 300⟩ ⟨10, 10, true, true⟩ none c6State).st.controllerHeartbeat
        = [] ∧
    (dispatchIteration ⟨5, 300⟩ ⟨10, 10, true, true⟩ none c6State).st.runFlag = true ∧
    (dispatchIteration ⟨5, 300⟩ ⟨10, 10, true, true⟩ none c6State).st.errorCount = 1 := by
  decide

/-! ### C7 -/

/-- C7: the claim says the dispatcher's acquisition-success check on the
task-queue critical section never raises because the scoped critical
section provides the queried operation. The class in
src/ctrl/critical_section.py defines no `is_locked`, so the check raises
AttributeError on every TASK_REQUEST, before the queue is touched and
before any reply is sent. -/
theorem C7_is_locked_attribute_missing :
    CriticalSectionSrc.hasAttr "is_locked" = false ∧
    isLockedLookup = Except.error (PyErr.attributeError "is_locked") ∧
    ∀ (cfg : Config) (env : IterEnv) (sender : String) (s : MasterState),
      (handleTaskRequestSrc cfg env sender s).sent = [] ∧
      (handleTaskRequestSrc cfg env sender s).err
          = some (PyErr.attributeError "is_locked") ∧
      (handleTaskRequestSrc cfg env sender s).st = s :=
  ⟨rfl, rfl, fun _ _ _ _ => ⟨rfl, rfl, rfl⟩⟩

/-! ### C8 -/

/-- C8: the claim says every receive on the master endpoint is bounded by
the configured poll timeout and returns absence on expiry. The
`MasterCommHandler` in src/master_comm_handler.py accepts no poll-timeout
parameter at all and its `recv` calls `socket.recv()` bare: with nothing
pending the call blocks instead of returning absence. -/
theorem C8_recv_blocks_without_poll :
    MasterCommHandlerSrc.recv [] = RecvOutcome.blocked ∧
    MasterCommHandlerSrc.initParams.contains "poll_timeout" = false := by
  decide

/-! ### C4 -/

theorem dispatchIteration_sent (cfg : Config) (env : IterEnv) (recv : Option RecvData)
    (s : MasterState) :
    (dispatchIteration cfg env recv s).sent = (dispatchInner cfg env recv s).sent := by
  cases herr : (dispatchInner cfg env recv s).err with
  | none => simp [dispatchIteration, herr]
  | some e => simp [dispatchIteration, herr]

theorem handleTaskRequestSrc_eq (cfg : Config) (env : IterEnv) (sender : String)
    (s : MasterState) :
    handleTaskRequestSrc cfg env sender s
      = ⟨s, [], some (PyErr.attributeError "is_locked")⟩ := rfl

theorem taskDistribution_dispatchIteration_off (cfg : Config) (env : IterEnv)
    (recv : Option RecvData) (s : MasterState) (h : s.taskDistribution = false) :
    (dispatchIteration cfg env recv s).st.taskDistribution = false := by
  unfold dispatchIteration
  cases recv with
  | none =>
    unfold dispatchInner handleTimeout
    simp only [h, if_false, Bool.false_eq_true]
    rcases pruneIter env.lastExecTimestamp cfg.controllerTimeout
        (dictKeys s.controllerHeartbeat) s.controllerHeartbeat.length
        s.controllerHeartbeat with ⟨hb, _ | e⟩ <;> simp [h]
  | some rd =>
    cases rd with
    | malformed raw => rfl
    | msg m =>
      unfold dispatchInner
      simp only [h, if_false, Bool.false_eq_true, handleShutdown]

/-- C4: from the moment TASK_DISTRIBUTION flips off until the dispatch
loop exits, the master never sends TASK_ASSIGN and every reply it sends
during the drain is EXIT: a message sent while the flag is off (each
send is tagged with the flag value at send time) is always EXIT — never
WAIT, ACKNOWLEDGE or TASK_ASSIGN — an iteration that begins with the
flag off sends nothing but EXIT, and the flag never returns to on. -/
theorem C4_drain_sends (cfg : Config) (env : IterEnv) (recv : Option RecvData)
    (s : MasterState) :
    (∀ p ∈ (dispatchIteration cfg env recv s).sent,
        p.1 = false → p.2 = MsgOut.exitCommand) ∧
    (s.taskDistribution = false →
        (∀ p ∈ (dispatchIteration cfg env recv s).sent, p.2 = MsgOut.exitCommand) ∧
        (dispatchIteration cfg env recv s).st.taskDistribution = false) := by
  constructor
  · rw [dispatchIteration_sent]
    cases recv with
    | none =>
      unfold dispatchInner handleTimeout
      by_cases hd : s.taskDistribution
      · simp only [hd, if_true]
        rintro p hp
        cases hp
      · simp only [hd, if_false, Bool.false_eq_true]
        rcases pruneIter env.lastExecTimestamp cfg.controllerTimeout
            (dictKeys s.controllerHeartbeat) s.controllerHeartbeat.length
            s.controllerHeartbeat with ⟨hb, _ | e⟩ <;>
          · rintro p hp
            cases hp
    | some rd =>
      cases rd with
      | malformed raw =>
        rintro p hp
        cases hp
      | msg m =>
        by_cases hd : s.taskDistribution
        · cases m with
          | taskRequest sender =>
            unfold dispatchInner
            simp only [hd, if_true, handleTaskRequestSrc_eq]
            rintro p hp
            cases hp
          | taskFinished sender tid =>
            unfold dispatchInner
            simp only [hd, if_true, handleTaskFinished]
            rcases hg : dictGet s.taskStatus tid with _ | rec
            · simp only [hg]
              rintro p hp
              cases hp
            · simp only [hg]
              by_cases hs : sender = rec.controller
              · simp only [if_pos hs, List.mem_singleton]
                rintro p rfl hfalse
                cases hfalse
              · simp only [if_neg hs, List.mem_singleton]
                rintro p rfl hfalse
                cases hfalse
          | heartbeat sender =>
            unfold dispatchInner
            simp only [hd, if_true, List.mem_singleton]
            rintro p rfl hfalse
            cases hfalse
          | unknown sender =>
            unfold dispatchInner
            simp only [hd, if_true]
            rintro p hp
            cases hp
        · unfold dispatchInner
          simp only [hd, if_false, Bool.false_eq_true, handleShutdown, List.mem_singleton]
          rintro p rfl _
          rfl
  · intro hd
    refine ⟨?_, taskDistribution_dispatchIteration_off cfg env recv s hd⟩
    rw [dispatchIteration_sent]
    cases recv with
    | none =>
      unfold dispatchInner handleTimeout
      simp only [hd, if_false, Bool.false_eq_true]
      rcases pruneIter env.lastExecTimestamp cfg.controllerTimeout
          (dictKeys s.controllerHeartbeat) s.controllerHeartbeat.length
          s.controllerHeartbeat with ⟨hb, _ | e⟩ <;>
        · rintro p hp
          cases hp
    | some rd =>
      cases rd with
      | malformed raw =>
        rintro p hp
        cases hp
      | msg m =>
        unfold dispatchInner
        simp only [hd, if_false, Bool.false_eq_true, handleShutdown, List.mem_singleton]
        rintro p rfl
        rfl

/-- Drain state for C4's witness: distribution already off, two
controllers still registered. -/
def c4DrainState : MasterState :=
  { taskDistribution := false, controllerWaitDuration := 0, taskStatus := [],
    controllerHeartbeat := [("controller1", 50), ("controller2", 90)], taskQueue := [],
    resultQueue := [], runFlag := true, errorCount := 0 }

/-- Witness for C4: the concrete drain iteration sends exactly one
message, tagged with the flag off, and the theorem identifies it as
EXIT. -/
theorem C4_drain_sends_witness :
    (dispatchIteration ⟨60, 300⟩ ⟨100, 100, true, true⟩
        (some (RecvData.msg (MsgIn.heartbeat "controller1"))) c4DrainState).sent
      = [(false, MsgOut.exitCommand)] ∧
    ((false : Bool), MsgOut.exitCommand).2 = MsgOut.exitCommand :=
  ⟨by decide,
    ((C4_drain_sends ⟨60, 300⟩ ⟨100, 100, true, true⟩
        (some (RecvData.msg (MsgIn.heartbeat "controller1"))) c4DrainState).2 rfl).1
      ((false : Bool), MsgOut.exitCommand) (by decide)⟩

/-! ### C1 -/

/-- C1: the claim describes the pop/assign/WAIT protocol for a
TASK_REQUEST received while distribution is on. Evaluating the code as
given: the `critical_section.is_locked()` check at cyclone-master.py
line 230 raises AttributeError on every such TASK_REQUEST before the
queue is touched, so no task is ever popped, no status record is
written, no reply is sent, the error is counted and distribution stops
— the claimed dispatch protocol is unreachable. -/
theorem C1_task_request_raises (cfg : Config) (env : IterEnv) (sender : String)
    (s : MasterState) (hdist : s.taskDistribution = true) :
    (dispatchIteration cfg env (some (RecvData.msg (MsgIn.taskRequest sender))) s).err
        = some (PyErr.attributeError "is_locked") ∧
    (dispatchIteration cfg env (some (RecvData.msg (MsgIn.taskRequest sender))) s).sent
        = [] ∧
    (dispatchIteration cfg env
          (some (RecvData.msg (MsgIn.taskRequest sender))) s).st.taskStatus
        = s.taskStatus ∧
    (dispatchIteration cfg env
          (some (RecvData.msg (MsgIn.taskRequest sender))) s).st.taskQueue
        = s.taskQueue ∧
    (dispatchIteration cfg env
          (some (RecvData.msg (MsgIn.taskRequest sender))) s).st.errorCount
        = s.errorCount + 1 ∧
    (dispatchIteration cfg env
          (some (RecvData.msg (MsgIn.taskRequest sender))) s).st.taskDistribution
        = false := by
  simp [dispatchIteration, dispatchInner, handleTaskRequestSrc_eq, hdist]

/-- On-state with a task queued and no status records: even so, a
TASK_REQUEST pops nothing. -/
def c1State : MasterState :=
  { taskDistribution := true, controllerWaitDuration := 5, taskStatus := [],
    controllerHeartbeat := [], taskQueue := [⟨"T1"⟩], resultQueue := [],
    runFlag := true, errorCount := 0 }

/-- Witness for C1 at a concrete on-state: the request raises the
AttributeError. -/
theorem C1_task_request_raises_witness :
    (dispatchIteration ⟨60, 300⟩ ⟨100, 100, true, true⟩
        (some (RecvData.msg (MsgIn.taskRequest "controller1"))) c1State).err
      = some (PyErr.attributeError "is_locked") :=
  (C1_task_request_raises ⟨60, 300⟩ ⟨100, 100, true, true⟩ "controller1" c1State rfl).1

/-! ### C2 -/

/-- C2: for a TASK_FINISHED received while distribution is on: with a
record whose controller equals the sender the master marks the record
FINISHED at `now`, pushes the tid to the result queue and replies
ACKNOWLEDGE; with a record held by a different controller it replies
ACKNOWLEDGE and changes nothing; with no record the RuntimeError is
counted by the iteration handler and task distribution stops. -/
theorem C2_task_finished (cfg : Config) (env : IterEnv) (sender tid : String)
    (s : MasterState) (hdist : s.taskDistribution = true) :
    (∀ rec : TaskStatusItem, dictGet s.taskStatus tid = some rec →
      (sender = rec.controller →
        (dispatchIteration cfg env (some (RecvData.msg (MsgIn.taskFinished sender tid))) s).sent
            = [(true, MsgOut.acknowledge)] ∧
        dictGet (dispatchIteration cfg env
              (some (RecvData.msg (MsgIn.taskFinished sender tid))) s).st.taskStatus tid
            = some ⟨rec.tid, TaskState.finished, rec.controller, env.now⟩ ∧
        (dispatchIteration cfg env
              (some (RecvData.msg (MsgIn.taskFinished sender tid))) s).st.resultQueue
            = s.resultQueue ++ [tid] ∧
        (dispatchIteration cfg env
              (some (RecvData.msg (MsgIn.taskFinished sender tid))) s).err = none) ∧
      (sender ≠ rec.controller →
        (dispatchIteration cfg env (some (RecvData.msg (MsgIn.taskFinished sender tid))) s).sent
            = [(true, MsgOut.acknowledge)] ∧
        (dispatchIteration cfg env
              (some (RecvData.msg (MsgIn.taskFinished sender tid))) s).st.taskStatus
            = s.taskStatus ∧
        (dispatchIteration cfg env
              (some (RecvData.msg (MsgIn.taskFinished sender tid))) s).st.resultQueue
            = s.resultQueue ∧
        (dispatchIteration cfg env
              (some (RecvData.msg (MsgIn.taskFinished sender tid))) s).err = none)) ∧
    (dictGet s.taskStatus tid = none →
      (dispatchIteration cfg env (some (RecvData.msg (MsgIn.taskFinished sender tid))) s).sent
          = [] ∧
      (dispatchIteration cfg env (some (RecvData.msg (MsgIn.taskFinished sender tid))) s).err
          = some (PyErr.runtimeError "Inconsistency detected on task finished!") ∧
      (dispatchIteration cfg env
            (some (RecvData.msg (MsgIn.taskFinished sender tid))) s).st.errorCount
          = s.errorCount + 1 ∧
      (dispatchIteration cfg env
            (some (RecvData.msg (MsgIn.taskFinished sender tid))) s).st.taskDistribution
          = false) := by
  refine ⟨fun rec hrec => ⟨fun hs => ?_, fun hs => ?_⟩, fun hnone => ?_⟩
  · simp [dispatchIteration, dispatchInner, handleTaskFinished,
      hdist, hrec, if_pos hs, dictGet_dictSet_self]
  · simp [dispatchIteration, dispatchInner, handleTaskFinished,
      hdist, hrec, if_neg hs]
  · simp [dispatchIteration, dispatchInner, handleTaskFinished,
      hdist, hnone]

/-- Start state for exercising C2: one record assigned to controller1. -/
def c2State : MasterState :=
  { taskDistribution := true, controllerWaitDuration := 5,
    taskStatus := [("T1", ⟨"T1", TaskState.assigned, "controller1", 40⟩)],
    controllerHeartbeat := [], taskQueue := [], resultQueue := [],
    runFlag := true, errorCount := 0 }

/-- Witness for C2: the matching-sender finish pushes the tid onto the
result queue. -/
theorem C2_task_finished_witness :
    (dispatchIteration ⟨60, 300⟩ ⟨100, 100, true, true⟩
        (some (RecvData.msg (MsgIn.taskFinished "controller1" "T1"))) c2State).st.resultQueue
      = c2State.resultQueue ++ ["T1"] :=
  (((C2_task_finished ⟨60, 300⟩ ⟨100, 100, true, true⟩ "controller1" "T1" c2State rfl).1
      ⟨"T1", TaskState.assigned, "controller1", 40⟩ (by decide)).1 rfl).2.2.1

/-! ### C5 -/

/-- C5: a message received while distribution is off is answered with
EXIT, its sender is removed from the heartbeat map (other entries are
untouched), and the loop terminates exactly when the map has become
empty. -/
theorem C5_drain_message (cfg : Config) (env : IterEnv) (m : MsgIn) (s : MasterState)
    (hoff : s.taskDistribution = false) (hrun : s.runFlag = true)
    (hnodup : (dictKeys s.controllerHeartbeat).Nodup) :
    (dispatchIteration cfg env (some (RecvData.msg m)) s).sent
        = [(false, MsgOut.exitCommand)] ∧
    dictGet (dispatchIteration cfg env (some (RecvData.msg m)) s).st.controllerHeartbeat
        m.sender = none ∧
    (∀ k, k ≠ m.sender →
      dictGet (dispatchIteration cfg env (some (RecvData.msg m)) s).st.controllerHeartbeat k
          = dictGet s.controllerHeartbeat k) ∧
    ((dispatchIteration cfg env (some (RecvData.msg m)) s).st.runFlag = false ↔
      (dispatchIteration cfg env (some (RecvData.msg m)) s).st.controllerHeartbeat = []) := by
  simp only [dispatchIteration, dispatchInner, handleShutdown, hoff,
    Bool.false_eq_true, if_false]
  refine ⟨by trivial,
    dictGet_dictPop_self _ _ (nodup_dictKeys_dictSet _ _ _ hnodup),
    fun k hk => ?_, ?_⟩
  · rw [dictGet_dictPop_ne _ _ _ hk, dictGet_dictSet_ne _ _ _ _ hk]
  · by_cases hlen :
        (dictPop (dictSet s.controllerHeartbeat m.sender env.now) m.sender).length = 0
    · simp only [hlen, if_true, eq_self_iff_true]
      simp [List.length_eq_zero.mp hlen]
    · simp only [hlen, if_false]
      constructor
      · intro hcontra
        rw [hrun] at hcontra
        cases hcontra
      · intro hnil
        exact absurd (by rw [hnil]; rfl) hlen

/-- Drain state for C5's witness: one registered controller. -/
def c5State : MasterState :=
  { taskDistribution := false, controllerWaitDuration := 0, taskStatus := [],
    controllerHeartbeat := [("controller1", 50)], taskQueue := [], resultQueue := [],
    runFlag := true, errorCount := 0 }

/-- Witness for C5: the drain reply to the last controller is EXIT. -/
theorem C5_drain_message_witness :
    (dispatchIteration ⟨60, 300⟩ ⟨100, 100, true, true⟩
        (some (RecvData.msg (MsgIn.heartbeat "controller1"))) c5State).sent
      = [(false, MsgOut.exitCommand)] :=
  (C5_drain_message ⟨60, 300⟩ ⟨100, 100, true, true⟩ (MsgIn.heartbeat "controller1")
      c5State rfl rfl (by decide)).1

/-! ### Byte-buffer bookkeeping for the worker tid slot -/

theorem takeWhile_nonzero_append (bs rest : List Nat) (h : ∀ b ∈ bs, b ≠ 0) :
    (bs ++ rest).takeWhile (fun b => b != 0)
      = bs ++ rest.takeWhile (fun b => b != 0) := by
  induction bs with
  | nil => rfl
  | cons x xs ih =>
    have hx : (x != 0) = true := by
      simpa using h x (List.mem_cons_self _ _)
    simp only [List.cons_append, List.takeWhile_cons, hx, if_true]
    rw [ih (fun b hb => h b (List.mem_cons_of_mem _ hb))]

theorem bufWrite_length (buf bs : List Nat) (h : bs.length ≤ buf.length) :
    (bufWrite buf bs).length = buf.length := by
  unfold bufWrite
  by_cases hlt : bs.length < buf.length
  · rw [if_pos hlt]
    simp only [List.length_append, List.length_cons, List.length_drop]
    omega
  · rw [if_neg hlt]
    simp only [List.length_append, List.length_nil]
    omega

theorem strDecode_strEncode (s : String) : strDecode (strEncode s) = s := by
  unfold strDecode strEncode
  rw [List.map_map]
  have hmap : s.data.map (Char.ofNat ∘ Char.toNat) = s.data := by
    induction s.data with
    | nil => rfl
    | cons c cs ih => simp [Char.ofNat_toNat, ih]
  rw [hmap]

/-! ### C10 -/

/-- C10: for an ASCII tid of at most 64 bytes with no NUL byte,
`set_tid` then `get_tid` on a `WorkerStateTableItem` returns exactly the
stored string, whatever the 64-byte slot held before. -/
theorem C10_set_get_roundtrip (s : String) (item : WorkerStateTableItem)
    (_hbuf : item.tid.length = tidBufSize)
    (hlen : s.data.length ≤ 64)
    (hch : ∀ c ∈ s.data, c.toNat < 128 ∧ c.toNat ≠ 0) :
    (setTid item s).map getTid = Except.ok s := by
  have hE : (strEncode s).length = s.data.length := List.length_map _ _
  have hno : ∀ b ∈ strEncode s, b ≠ 0 := by
    intro b hb
    obtain ⟨c, hc, rfl⟩ := List.mem_map.mp hb
    exact (hch c hc).2
  have hok : ((strEncode s).length > tidBufSize) = False :=
    eq_false (by rw [hE]; simp only [tidBufSize, gt_iff_lt, not_lt]; omega)
  simp only [setTid, hok, if_false, Except.map]
  congr 1
  unfold getTid bufWrite
  by_cases hfull : (strEncode s).length < item.tid.length
  · rw [if_pos hfull]
    rw [takeWhile_nonzero_append _ _ hno]
    simp only [List.takeWhile_cons, bne_self_eq_false, Bool.false_eq_true, if_false,
      List.append_nil]
    exact strDecode_strEncode s
  · rw [if_neg hfull]
    rw [List.append_nil]
    dsimp only
    have hself : List.takeWhile (fun b => b != 0) (strEncode s) = strEncode s := by
      have h := takeWhile_nonzero_append (strEncode s) [] hno
      simpa using h
    rw [hself]
    exact strDecode_strEncode s

/-- Slot whose 64-byte buffer already holds a longer previous tid. -/
def c10Item : WorkerStateTableItem :=
  { state := WorkerState.ready,
    tid := bufWrite (List.replicate 64 0) (strEncode "ABCDEFGHIJ"),
    timestamp := 0 }

/-- Witness for C10: writing the shorter `xy` over a slot that held
`ABCDEFGHIJ` reads back exactly `xy`. -/
theorem C10_set_get_roundtrip_witness :
    (setTid c10Item "xy").map getTid = Except.ok "xy" :=
  C10_set_get_roundtrip "xy" c10Item (by decide) (by decide) (by decide)

/-! ### C9 -/

/-- C9: for every popped task whose tid fits the 64-byte slot, whether
`task.execute()` succeeds or raises, the worker pushes the tid onto the
result queue, republishes its slot as READY with an empty tid, and no
exception escapes the iteration; when `execute` raised, the error was
logged. -/
theorem C9_worker_reports_despite_failure (task : Task) (outcome : ExecOutcome)
    (t1 t2 : Nat) (ctx : WorkerCtx)
    (hbuf : ctx.item.tid.length = tidBufSize)
    (hlen : task.tid.data.length ≤ 64) :
    (workerIteration task outcome t1 t2 ctx).map (fun c => c.resultQueue)
        = Except.ok (ctx.resultQueue ++ [task.tid]) ∧
    (workerIteration task outcome t1 t2 ctx).map (fun c => c.item.state)
        = Except.ok WorkerState.ready ∧
    (workerIteration task outcome t1 t2 ctx).map (fun c => getTid c.item)
        = Except.ok "" ∧
    (∀ m, outcome = ExecOutcome.raises m →
      (workerIteration task outcome t1 t2 ctx).map (fun c => c.log)
          = Except.ok
              (ctx.log ++ ["Caught exception in worker during task execute: " ++ m])) := by
  have hE : (strEncode task.tid).length = task.tid.data.length := List.length_map _ _
  have hok1 : ((strEncode task.tid).length > tidBufSize) = False :=
    eq_false (by rw [hE]; simp only [tidBufSize, gt_iff_lt, not_lt]; omega)
  have hok2 : ((strEncode "").length > tidBufSize) = False := eq_false (by decide)
  have hlenA : (bufWrite ctx.item.tid (strEncode task.tid)).length = tidBufSize := by
    rw [bufWrite_length _ _ (by rw [hE, hbuf]; exact hlen)]
    exact hbuf
  have hbw0 : ∀ buf : List Nat, 0 < buf.length → bufWrite buf [] = 0 :: buf.drop 1 := by
    intro buf hb
    unfold bufWrite
    rw [if_pos (by simpa using hb)]
    rfl
  have hgetB : ∀ st ts : Nat,
      getTid { state := st,
               tid := bufWrite (bufWrite ctx.item.tid (strEncode task.tid)) (strEncode ""),
               timestamp := ts } = "" := by
    intro st ts
    unfold getTid
    dsimp only
    rw [show strEncode "" = [] from rfl]
    rw [hbw0 _ (by rw [hlenA]; decide)]
    simp [List.takeWhile_cons, strDecode]
  refine ⟨?_, ?_, ?_, ?_⟩
  · simp only [workerIteration, setTid, hok1, hok2, if_false, Except.map]
  · simp only [workerIteration, setTid, hok1, hok2, if_false, Except.map]
  · simp only [workerIteration, setTid, hok1, hok2, if_false, Except.map]
    rw [hgetB]
  · intro m hm
    subst hm
    simp only [workerIteration, setTid, hok1, hok2, if_false, Except.map]

/-- Worker context with an idle slot for C9's witness. -/
def c9Ctx : WorkerCtx :=
  { item := { state := WorkerState.ready, tid := List.replicate 64 0, timestamp := 0 },
    resultQueue := [], log := [] }

/-- Witness for C9: a task whose `execute` raises is still reported to
the result queue. -/
theorem C9_worker_reports_despite_failure_witness :
    (workerIteration ⟨"T1"⟩ (ExecOutcome.raises "boom") 5 6 c9Ctx).map
        (fun c => c.resultQueue)
      = Except.ok (c9Ctx.resultQueue ++ [(⟨"T1"⟩ : Task).tid]) :=
  (C9_worker_reports_despite_failure ⟨"T1"⟩ (ExecOutcome.raises "boom") 5 6 c9Ctx
      (by decide) (by decide)).1

end Cyclone
